import Mathlib

/-!
Shallow embedding of `main.py` from the `nuist_selectbeds` repository: a
dormitory bed-selection pipeline (profile parsing, selection-context
extraction, floor/room/bed aggregation, and reservation submission).

Python dictionaries obtained via `dict.get(key)` yield `None` when a key is
absent, so JSON-derived fields are modelled as `Option String`.  Python
truthiness of such a value (used in `all([...])` and `if target_bed_id:`)
is `none`/empty-string falsy, captured by `truthy` below.  Network effects
are modelled by passing the responses in as data and by returning the list
of POST payloads the function issues.
-/

namespace SelectBeds

/-- Python truthiness of an optional string: `None` and `""` are falsy. -/
def truthy : Option String → Bool
  | none => false
  | some s => s ≠ ""

/-- Python `str.strip()`: drop leading and trailing whitespace.  Written
over the character list so that it evaluates by kernel reduction. -/
def pyStrip (s : String) : String :=
  ⟨((s.data.dropWhile Char.isWhitespace).reverse.dropWhile
      Char.isWhitespace).reverse⟩

/-- Python `str.lower()` (ASCII case folding suffices for the `'y'`
comparison in the source). -/
def pyLower (s : String) : String := ⟨s.data.map Char.toLower⟩

/-- Python `str.replace('学院：', '')`: remove every (non-overlapping,
left-to-right) occurrence of the label `学院：`. -/
def removeCollegeLabel : List Char → List Char
  | '学' :: '院' :: '：' :: rest => removeCollegeLabel rest
  | c :: rest => c :: removeCollegeLabel rest
  | [] => []

/-- String wrapper of `removeCollegeLabel`. -/
def pyRemoveCollegeLabel (s : String) : String := ⟨removeCollegeLabel s.data⟩

/-- One bed record of the floorShow JSON (`bed` entries): keys
`name`, `id`, `choose`, `bedPrice`, each read with `dict.get`. -/
structure Bed where
  name : Option String
  id : Option String
  choose : Option String
  bedPrice : Option String
  deriving DecidableEq, Repr

/-- One room record: keys `name`, `id`, `floorId` and the list `bed`. -/
structure Room where
  name : Option String
  id : Option String
  floorId : Option String
  bed : List Bed
  deriving DecidableEq, Repr

/-- One floor detail record (an element of `data.floor`): key `no` and the
list `room`. -/
structure Floor where
  no : Option String
  room : List Room
  deriving DecidableEq, Repr

/-- One entry of `data.floorSelect`: keys `floorId` and `no`. -/
structure FloorSel where
  floorId : Option String
  no : Option String
  deriving DecidableEq, Repr

/-- The availability test of `main.py` lines 192 and 236:
`bed.get('choose') == 'notCho'`. -/
def isNotCho (b : Bed) : Bool := b.choose == some "notCho"

/-- Lines 190-196 of `get_and_display_rooms`: the beds of a room collected
into `available_beds_in_room` (the loop appends exactly the beds whose
`choose` marker is `'notCho'`; the code then projects each to its
`name`/`bedPrice` pair for printing, which does not affect membership or
emptiness). -/
def availableBedsInRoom (r : Room) : List Bed := r.bed.filter isNotCho

/-- Lines 185-198: `available_beds_found` is set iff some room of some
floor has a nonempty `available_beds_in_room`. -/
def anyAvailable (fs : List Floor) : Bool :=
  fs.any fun f => f.room.any fun r => !(availableBedsInRoom r).isEmpty

/-! ## select_bed (lines 218-289) -/

/-- Lines 235-240: the inner bed loop of `select_bed` stops at the first
bed with `bed.get('name') == target_bed_name and bed.get('choose') ==
'notCho'` (the `break` at line 240 is unconditional once a bed matched). -/
def findBedInRoom (bedName : String) (beds : List Bed) : Option Bed :=
  beds.find? fun b => b.name == some bedName && isNotCho b

/-- The three identifier variables of `select_bed` (lines 227-229),
initially all `None`. -/
structure ResolveState where
  roomId : Option String
  bedId : Option String
  floorId : Option String
  deriving DecidableEq, Repr

/-- Lines 233-242: the room loop within one floor.  When a room's name
matches, its beds are scanned; on a bed match the three identifiers are
assigned from the room and bed; the loop then breaks only when
`target_bed_id` is truthy (line 241), so a falsy bed id, or a matching
room without a matching available bed, lets the scan continue to later
rooms. -/
def scanRooms (roomName bedName : String) (st : ResolveState) :
    List Room → ResolveState
  | [] => st
  | r :: rs =>
    if r.name == some roomName then
      let st' := match findBedInRoom bedName r.bed with
        | some b => ⟨r.id, b.id, r.floorId⟩
        | none => st
      if truthy st'.bedId then st' else scanRooms roomName bedName st' rs
    else scanRooms roomName bedName st rs

/-- Lines 232-244: the floor loop; after each floor the loop breaks when
`target_bed_id` is truthy (line 243). -/
def scanFloors (roomName bedName : String) (st : ResolveState) :
    List Floor → ResolveState
  | [] => st
  | f :: fs =>
    let st' := scanRooms roomName bedName st f.room
    if truthy st'.bedId then st' else scanFloors roomName bedName st' fs

/-- The whole resolution scan of `select_bed` starting from the all-`None`
state. -/
def resolveSelection (roomName bedName : String) (floors : List Floor) :
    ResolveState :=
  scanFloors roomName bedName ⟨none, none, none⟩ floors

/-- The `selection_final_params` dictionary assembled in `main`
(lines 325-331) and consumed by `select_bed`. -/
structure Params where
  token : String
  buildingId : String
  studentName : String
  deptName : String
  subId : String
  deriving DecidableEq, Repr

/-- The `post_data` dictionary of lines 253-262: the payload of the
reservation POST. -/
structure PostData where
  roomId : Option String
  bedId : Option String
  floorId : Option String
  token : String
  buildingId : String
  studentName : String
  deptName : String
  subId : String
  deriving DecidableEq, Repr

/-- The response to the `saveChosen` POST: a transport failure
(`raise_for_status` / `RequestException`), a body that is not valid JSON
(`json.JSONDecodeError`), or a JSON object read via `result.get('status')`,
`result.get('data')`, `result.get('message')`. -/
inductive SaveResp where
  | transportError
  | badJson
  | json (status : Option String) (data : Option String)
      (message : Option String)
  deriving DecidableEq, Repr

/-- The terminal branches of `select_bed`. -/
inductive SelectOutcome where
  | notFound
  | cancelled
  | success (detail : Option String)
  | failure (message : Option String)
  | transportError
  | jsonError
  deriving DecidableEq, Repr

/-- Lines 218-289 of `main.py`.  `roomInput`, `bedInput` and
`confirmInput` are the three raw `input()` strings (the code applies
`.strip()` to the first two and `.strip().lower()` to the third);
`resp` is the reservation endpoint's response.  Returns the terminal
branch together with the list of POSTs issued (empty or a singleton). -/
def select_bed (floors : List Floor) (params : Params)
    (roomInput bedInput confirmInput : String) (resp : SaveResp) :
    SelectOutcome × List PostData :=
  let st := resolveSelection (pyStrip roomInput) (pyStrip bedInput) floors
  if !(truthy st.roomId && truthy st.bedId && truthy st.floorId) then
    (.notFound, [])
  else
    let pd : PostData :=
      ⟨st.roomId, st.bedId, st.floorId, params.token, params.buildingId,
       params.studentName, params.deptName, params.subId⟩
    if pyLower (pyStrip confirmInput) ≠ "y" then (.cancelled, [])
    else
      match resp with
      | .transportError => (.transportError, [pd])
      | .badJson => (.jsonError, [pd])
      | .json status data message =>
        if status == some "success" then (.success data, [pd])
        else (.failure message, [pd])

/-! ## get_and_display_rooms (lines 139-215) -/

/-- A response to a `floorShow` POST: a transport failure, a body that is
not valid JSON, or a JSON envelope, read via `data.get('status')`,
`data.get('message')`, `data.get('data', {}).get('floorSelect', [])` and
`.get('data', {}).get('floor', [])` (each `get` defaulting as in the
source). -/
inductive ApiResp where
  | transportError
  | badJson
  | ok (status : Option String) (message : Option String)
      (floorSelect : List FloorSel) (floor : List Floor)
  deriving DecidableEq, Repr

/-- Whether a `floorShow` response has a parseable JSON body delivered
without transport failure. -/
def isOkJson : ApiResp → Bool
  | .ok _ _ _ _ => true
  | _ => false

/-- Aborting causes of the per-floor fetch loop. -/
inductive AggErr where
  | transport
  | json
  deriving DecidableEq, Repr

/-- Lines 166-178: the per-floor loop.  For the i-th entry of
`floor_select_list` a POST is issued and `floorResps i` is its response;
a transport failure or an unparseable body aborts the whole function via
the handlers at lines 210-215, otherwise the response's
`data.floor` list is appended to `all_rooms_data` (extending by an empty
list at the `if floor_data:` guard leaves the accumulator unchanged). -/
def fetchFloors (floorResps : Nat → ApiResp) :
    Nat → List FloorSel → Except AggErr (List Floor)
  | _, [] => .ok []
  | i, _ :: rest =>
    match floorResps i with
    | .transportError => .error .transport
    | .badJson => .error .json
    | .ok _ _ _ floor =>
      (fetchFloors floorResps (i + 1) rest).map (fun tl => floor ++ tl)

/-- The terminal branches of `get_and_display_rooms`; all of them except
`ok` make the Python function `return None`. -/
inductive AggOutcome where
  | transportError
  | jsonError
  | apiError (message : Option String)
  | noFloors
  | noRooms
  | fullyBooked
  | ok (rooms : List Floor)
  deriving DecidableEq, Repr

/-- Lines 139-215.  `first` is the response to the initial floor-listing
POST (line 148) and `floorResps i` the response to the i-th per-floor POST
(line 172). -/
def get_and_display_rooms (first : ApiResp) (floorResps : Nat → ApiResp) :
    AggOutcome :=
  match first with
  | .transportError => .transportError
  | .badJson => .jsonError
  | .ok status message floorSelect _ =>
    if status != some "success" then .apiError message
    else if floorSelect.isEmpty then .noFloors
    else
      match fetchFloors floorResps 0 floorSelect with
      | .error .transport => .transportError
      | .error .json => .jsonError
      | .ok allRooms =>
        if allRooms.isEmpty then .noRooms
        else if anyAvailable allRooms then .ok allRooms
        else .fullyBooked

/-- The Python return value of `get_and_display_rooms`: `all_rooms_data`
on the `ok` branch and `None` on every other branch (lines 155, 161, 181,
205, 208, 212, 215). -/
def aggReturnValue : AggOutcome → Option (List Floor)
  | .ok rooms => some rooms
  | _ => none

/-! ## get_selection_params (lines 89-136) -/

/-- The parseable content of the selection-entry response body as the two
extractors of `get_selection_params` see it: `tokenInput` is the result of
`soup.find('input', {'id': 'token', 'name': 'token'})` (`none` when the
element is absent; `some none` when present without a `value` attribute;
`some (some v)` when present with value `v`), and `subIdMatch` /
`buildingIdMatch` are the capture groups of the first matches of the
patterns `subId\s*=\s*'([^']+)';` and `buildingId\s*=\s*'([^']+)';`
(`none` when the pattern matches nowhere in the body). -/
structure SelectionPage where
  tokenInput : Option (Option String)
  subIdMatch : Option String
  buildingIdMatch : Option String
  deriving DecidableEq, Repr

/-- Lines 104-129: extract the token, then `subId` and `buildingId`;
each missing piece makes the function return `(None, None, None)` (lines
108-110 and 118-120), otherwise the three extracted values are returned
verbatim (line 129). -/
def get_selection_params (page : SelectionPage) :
    Option String × Option String × Option String :=
  match page.tokenInput with
  | none => (none, none, none)
  | some vattr =>
    match vattr with
    | none => (none, none, none)
    | some token =>
      match page.subIdMatch, page.buildingIdMatch with
      | some s, some b => (some token, some s, some b)
      | _, _ => (none, none, none)

/-! ## get_personal_info (lines 57-86) -/

/-- The parseable content of the profile response body: `personalDiv` is
`none` when `soup.find('div', class_='personal_left')` finds nothing, and
otherwise holds the text of each `p` tag inside the container, in
document order. -/
structure ProfilePage where
  personalDiv : Option (List String)
  deriving DecidableEq, Repr

/-- The terminal branches of `get_personal_info`.  `authOrPageError` is
the missing-container branch of lines 70-72 and `parseError` the
`IndexError`/`AttributeError` handler of lines 84-86; both make the Python
function return `(None, None)`. -/
inductive ProfileOutcome where
  | ok (name : String) (orgUnit : String)
  | authOrPageError
  | parseError
  | transportError
  deriving DecidableEq, Repr

/-- Lines 67-86: if the container is absent, fail; otherwise
`name = p_tags[0].text.strip()` and
`college = p_tags[1].text.replace('学院：', '').strip()`, where fewer than
two `p` tags raises `IndexError`, caught at line 84. -/
def get_personal_info (page : ProfilePage) : ProfileOutcome :=
  match page.personalDiv with
  | none => .authOrPageError
  | some pTags =>
    match pTags with
    | [] => .parseError
    | _ :: [] => .parseError
    | nameText :: collegeText :: _ =>
      .ok (pyStrip nameText) (pyStrip (pyRemoveCollegeLabel collegeText))

/-! ## Helper lemmas -/

/-- A bed returned by the inner bed scan belongs to the room's bed list and
matches both the requested name and the availability marker. -/
theorem findBedInRoom_spec {bn : String} {beds : List Bed} {b : Bed}
    (h : findBedInRoom bn beds = some b) :
    b ∈ beds ∧ b.name = some bn ∧ b.choose = some "notCho" := by
  have hmem := List.mem_of_find?_eq_some h
  have hp := List.find?_some h
  rw [Bool.and_eq_true] at hp
  refine ⟨hmem, ?_, ?_⟩
  · exact eq_of_beq hp.1
  · have := hp.2
    rw [isNotCho] at this
    exact eq_of_beq this

/-- The room loop either leaves the identifier state unchanged or assigns
it from some room of the list whose name matches and some bed of that room
matching the requested bed name with marker `notCho`. -/
theorem scanRooms_eq_or_assigned (rn bn : String) (st : ResolveState)
    (rooms : List Room) :
    scanRooms rn bn st rooms = st ∨
    ∃ r ∈ rooms, r.name = some rn ∧ ∃ b ∈ r.bed, b.name = some bn ∧
      b.choose = some "notCho" ∧
      scanRooms rn bn st rooms = ⟨r.id, b.id, r.floorId⟩ := by
  induction rooms generalizing st with
  | nil => exact Or.inl rfl
  | cons r rs ih =>
    by_cases hname : r.name = some rn
    · rcases hfind : findBedInRoom bn r.bed with _ | b
      · by_cases htr : truthy st.bedId = true
        · left
          simp [scanRooms, hname, hfind, htr]
        · have heq : scanRooms rn bn st (r :: rs) = scanRooms rn bn st rs := by
            simp [scanRooms, hname, hfind, htr]
          rw [heq]
          rcases ih st with h | ⟨r', hr', h1, b', hb', h2, h3, h4⟩
          · exact Or.inl h
          · exact Or.inr ⟨r', List.mem_cons_of_mem _ hr', h1, b', hb', h2, h3, h4⟩
      · obtain ⟨hbmem, hbname, hbcho⟩ := findBedInRoom_spec hfind
        by_cases htr : truthy (b.id) = true
        · right
          refine ⟨r, List.mem_cons_self _ _, hname, b, hbmem, hbname, hbcho, ?_⟩
          simp [scanRooms, hname, hfind, htr]
        · have heq : scanRooms rn bn st (r :: rs)
              = scanRooms rn bn (⟨r.id, b.id, r.floorId⟩ : ResolveState) rs := by
            simp [scanRooms, hname, hfind, htr]
          rw [heq]
          rcases ih (⟨r.id, b.id, r.floorId⟩ : ResolveState) with h |
              ⟨r', hr', h1, b', hb', h2, h3, h4⟩
          · exact Or.inr ⟨r, List.mem_cons_self _ _, hname, b, hbmem, hbname, hbcho, h⟩
          · exact Or.inr ⟨r', List.mem_cons_of_mem _ hr', h1, b', hb', h2, h3, h4⟩
    · have heq : scanRooms rn bn st (r :: rs) = scanRooms rn bn st rs := by
        simp [scanRooms, hname]
      rw [heq]
      rcases ih st with h | ⟨r', hr', h1, b', hb', h2, h3, h4⟩
      · exact Or.inl h
      · exact Or.inr ⟨r', List.mem_cons_of_mem _ hr', h1, b', hb', h2, h3, h4⟩

/-- The floor loop either leaves the identifier state unchanged or assigns
it from some matching room/bed pair of some floor. -/
theorem scanFloors_eq_or_assigned (rn bn : String) (st : ResolveState)
    (fs : List Floor) :
    scanFloors rn bn st fs = st ∨
    ∃ f ∈ fs, ∃ r ∈ f.room, r.name = some rn ∧ ∃ b ∈ r.bed,
      b.name = some bn ∧ b.choose = some "notCho" ∧
      scanFloors rn bn st fs = ⟨r.id, b.id, r.floorId⟩ := by
  induction fs generalizing st with
  | nil => exact Or.inl rfl
  | cons f fs ih =>
    rcases scanRooms_eq_or_assigned rn bn st f.room with hsc |
        ⟨r, hr, h1, b, hb, h2, h3, h4⟩
    · by_cases htr : truthy st.bedId = true
      · left
        simp [scanFloors, hsc, htr]
      · have heq : scanFloors rn bn st (f :: fs) = scanFloors rn bn st fs := by
          simp [scanFloors, hsc, htr]
        rw [heq]
        rcases ih st with h | ⟨f', hf', r', hr', h1, b', hb', h2, h3, h4⟩
        · exact Or.inl h
        · exact Or.inr ⟨f', List.mem_cons_of_mem _ hf', r', hr', h1, b', hb', h2, h3, h4⟩
    · by_cases htr : truthy (b.id) = true
      · right
        refine ⟨f, List.mem_cons_self _ _, r, hr, h1, b, hb, h2, h3, ?_⟩
        simp [scanFloors, h4, htr]
      · have heq : scanFloors rn bn st (f :: fs)
            = scanFloors rn bn (⟨r.id, b.id, r.floorId⟩ : ResolveState) fs := by
          simp [scanFloors, h4, htr]
        rw [heq]
        rcases ih (⟨r.id, b.id, r.floorId⟩ : ResolveState) with h |
            ⟨f', hf', r', hr', h1', b', hb', h2', h3', h4'⟩
        · exact Or.inr ⟨f, List.mem_cons_self _ _, r, hr, h1, b, hb, h2, h3, h⟩
        · exact Or.inr ⟨f', List.mem_cons_of_mem _ hf', r', hr', h1', b', hb', h2', h3', h4'⟩

/-- The list of POSTs issued by `select_bed`: the single `post_data`
payload when the resolution guard passes and the operator confirms,
otherwise nothing. -/
theorem select_bed_snd (floors : List Floor) (params : Params)
    (ri bi ci : String) (resp : SaveResp) :
    (select_bed floors params ri bi ci resp).2 =
      if truthy (resolveSelection (pyStrip ri) (pyStrip bi) floors).roomId
          && truthy (resolveSelection (pyStrip ri) (pyStrip bi) floors).bedId
          && truthy (resolveSelection (pyStrip ri) (pyStrip bi) floors).floorId
          && (pyLower (pyStrip ci) == "y") then
        [⟨(resolveSelection (pyStrip ri) (pyStrip bi) floors).roomId,
          (resolveSelection (pyStrip ri) (pyStrip bi) floors).bedId,
          (resolveSelection (pyStrip ri) (pyStrip bi) floors).floorId,
          params.token, params.buildingId, params.studentName,
          params.deptName, params.subId⟩]
      else [] := by
  unfold select_bed
  rcases resp with _ | _ | ⟨status, data, message⟩ <;>
    by_cases hg : (truthy (resolveSelection (pyStrip ri) (pyStrip bi) floors).roomId
        && truthy (resolveSelection (pyStrip ri) (pyStrip bi) floors).bedId
        && truthy (resolveSelection (pyStrip ri) (pyStrip bi) floors).floorId) = true <;>
    by_cases hc : pyLower (pyStrip ci) = "y" <;>
    simp [hg, hc, apply_ite]

/-- Any POST issued by `select_bed` is the single `post_data` payload built
from the resolved identifiers, and it is issued only when all three
resolved identifiers are truthy. -/
theorem select_bed_post_shape (floors : List Floor) (params : Params)
    (ri bi ci : String) (resp : SaveResp) (pd : PostData)
    (rest : List PostData)
    (h : (select_bed floors params ri bi ci resp).2 = pd :: rest) :
    rest = [] ∧
    pd = ⟨(resolveSelection (pyStrip ri) (pyStrip bi) floors).roomId,
          (resolveSelection (pyStrip ri) (pyStrip bi) floors).bedId,
          (resolveSelection (pyStrip ri) (pyStrip bi) floors).floorId,
          params.token, params.buildingId, params.studentName,
          params.deptName, params.subId⟩ ∧
    truthy (resolveSelection (pyStrip ri) (pyStrip bi) floors).roomId = true ∧
    truthy (resolveSelection (pyStrip ri) (pyStrip bi) floors).bedId = true ∧
    truthy (resolveSelection (pyStrip ri) (pyStrip bi) floors).floorId = true := by
  rw [select_bed_snd] at h
  split at h
  · next hcond =>
    rw [Bool.and_eq_true, Bool.and_eq_true, Bool.and_eq_true] at hcond
    rw [List.cons.injEq] at h
    exact ⟨h.2.symm, h.1.symm, hcond.1.1.1, hcond.1.1.2, hcond.1.2⟩
  · simp at h

/-! ## Claim theorems for select_bed -/

/-- Claim C4: for every catalog, room name and bed name such that no room
whose name equals the given (stripped) room name contains a bed whose name
equals the given (stripped) bed name with marker `notCho`, `select_bed`
reports the not-found error and issues zero POSTs. -/
theorem C4_not_found_no_post (floors : List Floor) (params : Params)
    (ri bi ci : String) (resp : SaveResp)
    (H : ∀ f ∈ floors, ∀ r ∈ f.room, r.name = some (pyStrip ri) →
      ∀ b ∈ r.bed, ¬(b.name = some (pyStrip bi) ∧ b.choose = some "notCho")) :
    select_bed floors params ri bi ci resp = (.notFound, []) := by
  have hres : resolveSelection (pyStrip ri) (pyStrip bi) floors
      = ⟨none, none, none⟩ := by
    rcases scanFloors_eq_or_assigned (pyStrip ri) (pyStrip bi)
        ⟨none, none, none⟩ floors with h | ⟨f, hf, r, hr, h1, b, hb, h2, h3, _⟩
    · exact h
    · exact absurd ⟨h2, h3⟩ (H f hf r hr h1 b hb)
  simp [select_bed, hres, truthy]

/-- Witness for C4: a concrete catalog whose only bed has a different name,
with the hypothesis checked at that input. -/
theorem C4_witness :
    (∀ f ∈ ([⟨some "1F", [⟨some "A", some "R1", some "F1",
          [⟨some "1", some "B1", some "notCho", none⟩]⟩]⟩] : List Floor),
      ∀ r ∈ f.room, r.name = some (pyStrip "A") →
      ∀ b ∈ r.bed, ¬(b.name = some (pyStrip "9") ∧ b.choose = some "notCho")) ∧
    select_bed [⟨some "1F", [⟨some "A", some "R1", some "F1",
        [⟨some "1", some "B1", some "notCho", none⟩]⟩]⟩]
      ⟨"t", "bld", "stu", "dep", "sub"⟩ "A" "9" "y" (.json none none none)
      = (.notFound, []) :=
  ⟨by decide,
   C4_not_found_no_post _ ⟨"t", "bld", "stu", "dep", "sub"⟩ "A" "9" "y"
     (.json none none none) (by decide)⟩

/-- Claim C10: whenever `select_bed` issues the reservation POST, the
payload's `roomId`, `bedId` and `floorId` are all truthy and are copied
from a room/bed pair of the catalog matching the operator's (stripped)
room and bed names with marker `notCho`; conversely a payload with a falsy
identifier is never sent. -/
theorem C10_post_ids_truthy_matched (floors : List Floor) (params : Params)
    (ri bi ci : String) (resp : SaveResp) (pd : PostData)
    (rest : List PostData)
    (h : (select_bed floors params ri bi ci resp).2 = pd :: rest) :
    truthy pd.roomId = true ∧ truthy pd.bedId = true ∧
    truthy pd.floorId = true ∧
    ∃ f ∈ floors, ∃ r ∈ f.room, r.name = some (pyStrip ri) ∧ ∃ b ∈ r.bed,
      b.name = some (pyStrip bi) ∧ b.choose = some "notCho" ∧
      pd.roomId = r.id ∧ pd.bedId = b.id ∧ pd.floorId = r.floorId := by
  obtain ⟨-, hpd, h1, h2, h3⟩ :=
    select_bed_post_shape floors params ri bi ci resp pd rest h
  subst hpd
  refine ⟨h1, h2, h3, ?_⟩
  have hscan := scanFloors_eq_or_assigned (pyStrip ri) (pyStrip bi)
    ⟨none, none, none⟩ floors
  rw [show scanFloors (pyStrip ri) (pyStrip bi)
      (⟨none, none, none⟩ : ResolveState) floors
      = resolveSelection (pyStrip ri) (pyStrip bi) floors from rfl] at hscan
  rcases hscan with hres | ⟨f, hf, r, hr, hn, b, hb, hbn, hbc, hres⟩
  · rw [hres] at h2
    simp [truthy] at h2
  · exact ⟨f, hf, r, hr, hn, b, hb, hbn, hbc,
      by simp [hres], by simp [hres], by simp [hres]⟩

/-- Witness for C10: a concrete run that issues one POST, with the issued
payload checked at that input. -/
theorem C10_witness :
    ((select_bed [⟨some "1F", [⟨some "A", some "R1", some "F1",
          [⟨some "1", some "B1", some "notCho", none⟩]⟩]⟩]
        ⟨"t", "bld", "stu", "dep", "sub"⟩ "A" "1" "y"
        (.json (some "success") (some "OK") none)).2
      = [⟨some "R1", some "B1", some "F1", "t", "bld", "stu", "dep", "sub"⟩]) ∧
    (truthy (some "R1") = true ∧ truthy (some "B1") = true ∧
      truthy (some "F1") = true ∧
      ∃ f ∈ ([⟨some "1F", [⟨some "A", some "R1", some "F1",
            [⟨some "1", some "B1", some "notCho", none⟩]⟩]⟩] : List Floor),
        ∃ r ∈ f.room, r.name = some (pyStrip "A") ∧ ∃ b ∈ r.bed,
          b.name = some (pyStrip "1") ∧ b.choose = some "notCho" ∧
          (some "R1" : Option String) = r.id ∧
          (some "B1" : Option String) = b.id ∧
          (some "F1" : Option String) = r.floorId) :=
  ⟨by decide,
   C10_post_ids_truthy_matched _ ⟨"t", "bld", "stu", "dep", "sub"⟩ "A" "1" "y"
     (.json (some "success") (some "OK") none)
     ⟨some "R1", some "B1", some "F1", "t", "bld", "stu", "dep", "sub"⟩ []
     (by decide)⟩

/-- Claim C5: when the room/bed pair resolves (all three resolved
identifiers truthy) and the operator confirms, `select_bed` issues exactly
one POST carrying the resolved `roomId`, `bedId`, `floorId` together with
`token`, `buildingId`, `studentName`, `deptName` and `subId`, maps a
response with status `success` to the success branch carrying the server's
`data`, and any other status to the failure branch carrying the server's
`message` (never the transport-error branch). -/
theorem C5_confirmed_single_post (floors : List Floor) (params : Params)
    (ri bi ci : String) (status data message : Option String)
    (h1 : truthy (resolveSelection (pyStrip ri) (pyStrip bi) floors).roomId = true)
    (h2 : truthy (resolveSelection (pyStrip ri) (pyStrip bi) floors).bedId = true)
    (h3 : truthy (resolveSelection (pyStrip ri) (pyStrip bi) floors).floorId = true)
    (hc : pyLower (pyStrip ci) = "y") :
    select_bed floors params ri bi ci (.json status data message)
      = ((if status = some "success" then .success data
          else .failure message),
         [⟨(resolveSelection (pyStrip ri) (pyStrip bi) floors).roomId,
           (resolveSelection (pyStrip ri) (pyStrip bi) floors).bedId,
           (resolveSelection (pyStrip ri) (pyStrip bi) floors).floorId,
           params.token, params.buildingId, params.studentName,
           params.deptName, params.subId⟩]) := by
  by_cases hs : status = some "success" <;>
    simp [select_bed, h1, h2, h3, hc, hs]

/-- Witness for C5: a concrete resolving catalog, a confirming operator
and a non-success response, with the hypotheses checked there. -/
theorem C5_witness :
    (truthy (resolveSelection (pyStrip "A") (pyStrip "1")
        [⟨some "1F", [⟨some "A", some "R1", some "F1",
          [⟨some "1", some "B1", some "notCho", none⟩]⟩]⟩]).roomId = true ∧
     truthy (resolveSelection (pyStrip "A") (pyStrip "1")
        [⟨some "1F", [⟨some "A", some "R1", some "F1",
          [⟨some "1", some "B1", some "notCho", none⟩]⟩]⟩]).bedId = true ∧
     truthy (resolveSelection (pyStrip "A") (pyStrip "1")
        [⟨some "1F", [⟨some "A", some "R1", some "F1",
          [⟨some "1", some "B1", some "notCho", none⟩]⟩]⟩]).floorId = true ∧
     pyLower (pyStrip " Y ") = "y") ∧
    select_bed [⟨some "1F", [⟨some "A", some "R1", some "F1",
        [⟨some "1", some "B1", some "notCho", none⟩]⟩]⟩]
      ⟨"t", "bld", "stu", "dep", "sub"⟩ "A" "1" " Y "
      (.json (some "error") none (some "taken"))
      = ((if (some "error" : Option String) = some "success" then
            .success none else .failure (some "taken")),
         [⟨(resolveSelection (pyStrip "A") (pyStrip "1")
              [⟨some "1F", [⟨some "A", some "R1", some "F1",
                [⟨some "1", some "B1", some "notCho", none⟩]⟩]⟩]).roomId,
           (resolveSelection (pyStrip "A") (pyStrip "1")
              [⟨some "1F", [⟨some "A", some "R1", some "F1",
                [⟨some "1", some "B1", some "notCho", none⟩]⟩]⟩]).bedId,
           (resolveSelection (pyStrip "A") (pyStrip "1")
              [⟨some "1F", [⟨some "A", some "R1", some "F1",
                [⟨some "1", some "B1", some "notCho", none⟩]⟩]⟩]).floorId,
           "t", "bld", "stu", "dep", "sub"⟩]) :=
  ⟨⟨by decide, by decide, by decide, by decide⟩,
   C5_confirmed_single_post _ ⟨"t", "bld", "stu", "dep", "sub"⟩ "A" "1" " Y "
     (some "error") none (some "taken")
     (by decide) (by decide) (by decide) (by decide)⟩

/-- Claim C6: when the room/bed pair resolves but the operator does not
confirm, `select_bed` terminates on the cancelled branch (a non-error
outcome) and issues zero POSTs. -/
theorem C6_cancel_no_post (floors : List Floor) (params : Params)
    (ri bi ci : String) (resp : SaveResp)
    (h1 : truthy (resolveSelection (pyStrip ri) (pyStrip bi) floors).roomId = true)
    (h2 : truthy (resolveSelection (pyStrip ri) (pyStrip bi) floors).bedId = true)
    (h3 : truthy (resolveSelection (pyStrip ri) (pyStrip bi) floors).floorId = true)
    (hc : pyLower (pyStrip ci) ≠ "y") :
    select_bed floors params ri bi ci resp = (.cancelled, []) := by
  rcases resp with _ | _ | ⟨status, data, message⟩ <;>
    simp [select_bed, h1, h2, h3, hc]

/-- Witness for C6: a concrete resolving catalog and a declining operator,
with the hypotheses checked there. -/
theorem C6_witness :
    (truthy (resolveSelection (pyStrip "A") (pyStrip "1")
        [⟨some "1F", [⟨some "A", some "R1", some "F1",
          [⟨some "1", some "B1", some "notCho", none⟩]⟩]⟩]).roomId = true ∧
     truthy (resolveSelection (pyStrip "A") (pyStrip "1")
        [⟨some "1F", [⟨some "A", some "R1", some "F1",
          [⟨some "1", some "B1", some "notCho", none⟩]⟩]⟩]).bedId = true ∧
     truthy (resolveSelection (pyStrip "A") (pyStrip "1")
        [⟨some "1F", [⟨some "A", some "R1", some "F1",
          [⟨some "1", some "B1", some "notCho", none⟩]⟩]⟩]).floorId = true ∧
     pyLower (pyStrip "n") ≠ "y") ∧
    select_bed [⟨some "1F", [⟨some "A", some "R1", some "F1",
        [⟨some "1", some "B1", some "notCho", none⟩]⟩]⟩]
      ⟨"t", "bld", "stu", "dep", "sub"⟩ "A" "1" "n"
      (.json (some "success") (some "OK") none)
      = (.cancelled, []) :=
  ⟨⟨by decide, by decide, by decide, by decide⟩,
   C6_cancel_no_post _ ⟨"t", "bld", "stu", "dep", "sub"⟩ "A" "1" "n"
     (.json (some "success") (some "OK") none)
     (by decide) (by decide) (by decide) (by decide)⟩

/-- Claim C7: a bed of a room is in the list of beds offered to the
operator iff its `choose` marker is exactly `notCho`, and the resolution
scan of `select_bed` only ever selects a bed whose marker is exactly
`notCho`. -/
theorem C7_available_iff_notCho (r : Room) (b : Bed) (hb : b ∈ r.bed) :
    (b ∈ availableBedsInRoom r ↔ b.choose = some "notCho") ∧
    ∀ (bn : String) (b2 : Bed), findBedInRoom bn r.bed = some b2 →
      b2.choose = some "notCho" := by
  constructor
  · rw [availableBedsInRoom, List.mem_filter]
    constructor
    · rintro ⟨-, hcho⟩
      rw [isNotCho] at hcho
      exact eq_of_beq hcho
    · intro hcho
      refine ⟨hb, ?_⟩
      rw [isNotCho, hcho]
      exact beq_self_eq_true _
  · intro bn b2 hfind
    exact (findBedInRoom_spec hfind).2.2

/-- Witness for C7: a concrete room with one available and one taken bed,
with the membership hypothesis checked there. -/
theorem C7_witness :
    ((⟨some "1", some "B1", some "notCho", none⟩ : Bed)
        ∈ (⟨some "A", some "R1", some "F1",
            [⟨some "1", some "B1", some "notCho", none⟩,
             ⟨some "2", some "B2", some "hadCho", none⟩]⟩ : Room).bed) ∧
    (((⟨some "1", some "B1", some "notCho", none⟩ : Bed)
        ∈ availableBedsInRoom ⟨some "A", some "R1", some "F1",
            [⟨some "1", some "B1", some "notCho", none⟩,
             ⟨some "2", some "B2", some "hadCho", none⟩]⟩
      ↔ (⟨some "1", some "B1", some "notCho", none⟩ : Bed).choose
          = some "notCho") ∧
     ∀ (bn : String) (b2 : Bed),
       findBedInRoom bn (⟨some "A", some "R1", some "F1",
           [⟨some "1", some "B1", some "notCho", none⟩,
            ⟨some "2", some "B2", some "hadCho", none⟩]⟩ : Room).bed
         = some b2 → b2.choose = some "notCho") :=
  ⟨by decide,
   C7_available_iff_notCho
     ⟨some "A", some "R1", some "F1",
       [⟨some "1", some "B1", some "notCho", none⟩,
        ⟨some "2", some "B2", some "hadCho", none⟩]⟩
     ⟨some "1", some "B1", some "notCho", none⟩ (by decide)⟩

/-- Counterexample to claim C2 as stated: with two rooms named `A`, the
first of which contains no bed at all, `select_bed` selects the bed of the
second (later) duplicate room — so a later duplicate is examined and its
bed selected when the first matching room has no available bed of the
requested name. -/
theorem C2_counterexample :
    select_bed
      [⟨some "1F",
        [⟨some "A", some "R1", some "F1", []⟩,
         ⟨some "A", some "R2", some "F1",
           [⟨some "1", some "B2", some "notCho", none⟩]⟩]⟩]
      ⟨"t", "bld", "stu", "dep", "sub"⟩ "A" "1" "y"
      (.json (some "success") (some "OK") none)
    = (.success (some "OK"),
       [⟨some "R2", some "B2", some "F1", "t", "bld", "stu", "dep", "sub"⟩]) := by
  decide

/-- Claim C2 as amended: the room scan commits to the first room whose
name matches and which yields a matching `notCho` bed with a truthy bed
id; rooms after that one (duplicates included) are never examined — the
result does not depend on them.  When the first room with the matching
name yields no such bed, the scan continues into later duplicate rooms
and a bed there can be selected. -/
theorem C2_first_resolving_room_wins (rn bn : String) (st : ResolveState)
    (r : Room) (rest : List Room) (b : Bed)
    (hname : r.name = some rn) (hfind : findBedInRoom bn r.bed = some b)
    (hid : truthy b.id = true) :
    scanRooms rn bn st (r :: rest) = ⟨r.id, b.id, r.floorId⟩ := by
  simp [scanRooms, hname, hfind, hid]

/-- Witness for the amended C2: a concrete first room that resolves, with
the hypotheses checked there. -/
theorem C2_witness :
    ((⟨some "A", some "R1", some "F1",
        [⟨some "1", some "B1", some "notCho", none⟩]⟩ : Room).name
        = some "A" ∧
     findBedInRoom "1" (⟨some "A", some "R1", some "F1",
        [⟨some "1", some "B1", some "notCho", none⟩]⟩ : Room).bed
        = some ⟨some "1", some "B1", some "notCho", none⟩ ∧
     truthy (⟨some "1", some "B1", some "notCho", none⟩ : Bed).id = true) ∧
    scanRooms "A" "1" ⟨none, none, none⟩
      [⟨some "A", some "R1", some "F1",
         [⟨some "1", some "B1", some "notCho", none⟩]⟩,
       ⟨some "A", some "R2", some "F1",
         [⟨some "1", some "B9", some "notCho", none⟩]⟩]
      = ⟨some "R1", some "B1", some "F1"⟩ :=
  ⟨⟨by decide, by decide, by decide⟩,
   C2_first_resolving_room_wins "A" "1" ⟨none, none, none⟩
     ⟨some "A", some "R1", some "F1",
       [⟨some "1", some "B1", some "notCho", none⟩]⟩
     [⟨some "A", some "R2", some "F1",
       [⟨some "1", some "B9", some "notCho", none⟩]⟩]
     ⟨some "1", some "B1", some "notCho", none⟩
     (by decide) (by decide) (by decide)⟩

/-! ## Claim theorems for get_and_display_rooms -/

/-- When every per-floor response before step `i` is delivered and
parseable and the response at step `i` has an unparseable body, the
per-floor fetch loop aborts with the JSON-decode failure. -/
theorem fetchFloors_badJson (floorResps : Nat → ApiResp) :
    ∀ (sels : List FloorSel) (n i : Nat), i < sels.length →
      (∀ k, k < i → isOkJson (floorResps (n + k)) = true) →
      floorResps (n + i) = .badJson →
      fetchFloors floorResps n sels = .error .json := by
  intro sels
  induction sels with
  | nil =>
    intro n i hi
    simp at hi
  | cons s rest ih =>
    intro n i hi hok hbad
    cases i with
    | zero =>
      rw [Nat.add_zero] at hbad
      simp [fetchFloors, hbad]
    | succ j =>
      have h0 : isOkJson (floorResps n) = true := by
        have := hok 0 (Nat.succ_pos j)
        rwa [Nat.add_zero] at this
      cases hr : floorResps n with
      | transportError =>
        rw [hr] at h0
        simp [isOkJson] at h0
      | badJson =>
        rw [hr] at h0
        simp [isOkJson] at h0
      | ok st ms fsel fl =>
        have hrec : fetchFloors floorResps (n + 1) rest = .error .json := by
          apply ih (n + 1) j
          · simpa using hi
          · intro k hk
            have := hok (k + 1) (by omega)
            rwa [show n + (k + 1) = n + 1 + k by omega] at this
          · rw [show n + 1 + j = n + (j + 1) by omega]
            exact hbad
        simp [fetchFloors, hr, hrec, Except.map]

/-- Claim C3: an unparseable response body is fatal to the whole
aggregation wherever it occurs — at the initial floor-listing step, or at
any per-floor step that is reached (all earlier per-floor responses
parseable) — and is never skipped in favour of the remaining floors. -/
theorem C3_unparseable_fatal (floorResps : Nat → ApiResp) :
    get_and_display_rooms .badJson floorResps = .jsonError ∧
    ∀ (message : Option String) (floorSelect : List FloorSel)
      (floorX : List Floor) (i : Nat), i < floorSelect.length →
      (∀ k, k < i → isOkJson (floorResps k) = true) →
      floorResps i = .badJson →
      get_and_display_rooms (.ok (some "success") message floorSelect floorX)
        floorResps = .jsonError := by
  constructor
  · rfl
  · intro message floorSelect floorX i hi hok hbad
    have hfe : floorSelect.isEmpty = false := by
      cases floorSelect
      · simp at hi
      · rfl
    have hff : fetchFloors floorResps 0 floorSelect = .error .json := by
      apply fetchFloors_badJson floorResps floorSelect 0 i hi
      · intro k hk
        simpa using hok k hk
      · simpa using hbad
    simp [get_and_display_rooms, hfe, hff]

/-- Witness for C3: two floors whose first detail response is parseable
and whose second is not, with the hypotheses checked there. -/
theorem C3_witness :
    (1 < ([⟨some "f1", some "1F"⟩, ⟨some "f2", some "2F"⟩] :
        List FloorSel).length ∧
     (∀ k, k < 1 → isOkJson
        ((fun n => if n == 0 then ApiResp.ok none none [] [] else .badJson) k)
        = true) ∧
     (fun n => if n == 0 then ApiResp.ok none none [] [] else .badJson) 1
        = .badJson) ∧
    get_and_display_rooms
      (.ok (some "success") none
        [⟨some "f1", some "1F"⟩, ⟨some "f2", some "2F"⟩] [])
      (fun n => if n == 0 then ApiResp.ok none none [] [] else .badJson)
      = .jsonError :=
  ⟨⟨by decide, by decide, by decide⟩,
   (C3_unparseable_fatal
      (fun n => if n == 0 then ApiResp.ok none none [] [] else .badJson)).2
     none [⟨some "f1", some "1F"⟩, ⟨some "f2", some "2F"⟩] [] 1
     (by decide) (by decide) (by decide)⟩

/-- Counterexample to claim C1 as stated: a fully-booked run (floors and
rooms exist, every bed taken) and a no-floors error run return the same
value `None` to the caller, so the fully-booked outcome is not
distinguishable from the error outcomes by the returned value. -/
theorem C1_counterexample :
    get_and_display_rooms
      (.ok (some "success") none [⟨some "f1", some "1F"⟩] [])
      (fun _ => .ok none none []
        [⟨some "1F", [⟨some "A", some "R1", some "F1",
          [⟨some "1", some "B1", some "hadCho", none⟩]⟩]⟩])
      = .fullyBooked ∧
    get_and_display_rooms (.ok (some "success") none [] [])
      (fun _ => .ok none none []
        [⟨some "1F", [⟨some "A", some "R1", some "F1",
          [⟨some "1", some "B1", some "hadCho", none⟩]⟩]⟩])
      = .noFloors ∧
    aggReturnValue (get_and_display_rooms
      (.ok (some "success") none [⟨some "f1", some "1F"⟩] [])
      (fun _ => .ok none none []
        [⟨some "1F", [⟨some "A", some "R1", some "F1",
          [⟨some "1", some "B1", some "hadCho", none⟩]⟩]⟩]))
      = aggReturnValue (get_and_display_rooms (.ok (some "success") none [] [])
        (fun _ => .ok none none []
          [⟨some "1F", [⟨some "A", some "R1", some "F1",
            [⟨some "1", some "B1", some "hadCho", none⟩]⟩]⟩])) :=
  ⟨rfl, rfl, rfl⟩

/-- Claim C1 as amended: when the floor listing succeeds, floors exist,
the per-floor fetches succeed with a nonempty room list, and no bed is
available, `get_and_display_rooms` takes the distinct fully-booked
terminal branch (printing the distinct fully-booked message), but the
value it returns to the caller is `None` — the same value every error
outcome returns, so callers cannot distinguish the fully-booked case from
the error cases by the returned value. -/
theorem C1_fullyBooked_returns_none (first : ApiResp)
    (floorResps : Nat → ApiResp) (message : Option String)
    (floorSelect : List FloorSel) (floorX allRooms : List Floor)
    (h1 : first = .ok (some "success") message floorSelect floorX)
    (h2 : floorSelect ≠ [])
    (h3 : fetchFloors floorResps 0 floorSelect = .ok allRooms)
    (h4 : allRooms ≠ [])
    (h5 : anyAvailable allRooms = false) :
    get_and_display_rooms first floorResps = .fullyBooked ∧
    aggReturnValue (get_and_display_rooms first floorResps) = none := by
  subst h1
  have hfe : floorSelect.isEmpty = false := by
    cases floorSelect
    · exact absurd rfl h2
    · rfl
  have hre : allRooms.isEmpty = false := by
    cases allRooms
    · exact absurd rfl h4
    · rfl
  refine ⟨?_, ?_⟩ <;>
    simp [get_and_display_rooms, hfe, h3, hre, h5, aggReturnValue]

/-- Witness for the amended C1: a concrete one-floor building whose only
bed is taken, with the hypotheses checked there. -/
theorem C1_witness :
    ((ApiResp.ok (some "success") none [⟨some "f1", some "1F"⟩] [])
        = .ok (some "success") none [⟨some "f1", some "1F"⟩] [] ∧
     ([⟨some "f1", some "1F"⟩] : List FloorSel) ≠ [] ∧
     fetchFloors (fun _ => .ok none none []
        [⟨some "1F", [⟨some "A", some "R1", some "F1",
          [⟨some "1", some "B1", some "hadCho", none⟩]⟩]⟩]) 0
        [⟨some "f1", some "1F"⟩]
        = .ok [⟨some "1F", [⟨some "A", some "R1", some "F1",
            [⟨some "1", some "B1", some "hadCho", none⟩]⟩]⟩] ∧
     ([⟨some "1F", [⟨some "A", some "R1", some "F1",
          [⟨some "1", some "B1", some "hadCho", none⟩]⟩]⟩] : List Floor)
        ≠ [] ∧
     anyAvailable [⟨some "1F", [⟨some "A", some "R1", some "F1",
          [⟨some "1", some "B1", some "hadCho", none⟩]⟩]⟩] = false) ∧
    (get_and_display_rooms
        (.ok (some "success") none [⟨some "f1", some "1F"⟩] [])
        (fun _ => .ok none none []
          [⟨some "1F", [⟨some "A", some "R1", some "F1",
            [⟨some "1", some "B1", some "hadCho", none⟩]⟩]⟩])
        = .fullyBooked ∧
     aggReturnValue (get_and_display_rooms
        (.ok (some "success") none [⟨some "f1", some "1F"⟩] [])
        (fun _ => .ok none none []
          [⟨some "1F", [⟨some "A", some "R1", some "F1",
            [⟨some "1", some "B1", some "hadCho", none⟩]⟩]⟩]))
        = none) :=
  ⟨⟨rfl, by decide, rfl, by decide, rfl⟩,
   C1_fullyBooked_returns_none _ _ none [⟨some "f1", some "1F"⟩] []
     [⟨some "1F", [⟨some "A", some "R1", some "F1",
        [⟨some "1", some "B1", some "hadCho", none⟩]⟩]⟩]
     rfl (by decide) rfl (by decide) rfl⟩

/-! ## Claim theorems for get_selection_params and get_personal_info -/

/-- Claim C8: for every selection-entry response containing a token input
with a value and first matches for both script assignments,
`get_selection_params` returns all three values verbatim; when either
script assignment is absent it returns the failure triple regardless of
the token's presence. -/
theorem C8_selection_params (page : SelectionPage) :
    (∀ t s b, page.tokenInput = some (some t) → page.subIdMatch = some s →
      page.buildingIdMatch = some b →
      get_selection_params page = (some t, some s, some b)) ∧
    ((page.subIdMatch = none ∨ page.buildingIdMatch = none) →
      get_selection_params page = (none, none, none)) := by
  obtain ⟨tok, sm, bm⟩ := page
  constructor
  · rintro t s b h1 h2 h3
    subst h1
    subst h2
    subst h3
    rfl
  · rintro (h | h)
    · subst h
      rcases tok with _ | tv
      · rfl
      · rcases tv with _ | t
        · rfl
        · rfl
    · subst h
      rcases tok with _ | tv
      · rfl
      · rcases tv with _ | t
        · rfl
        · rcases sm with _ | s
          · rfl
          · rfl

/-- Witness for C8: a concrete page holding all three values, with the
hypotheses checked there. -/
theorem C8_witness :
    ((⟨some (some "tok"), some "s1", some "b1"⟩ :
        SelectionPage).tokenInput = some (some "tok") ∧
     (⟨some (some "tok"), some "s1", some "b1"⟩ :
        SelectionPage).subIdMatch = some "s1" ∧
     (⟨some (some "tok"), some "s1", some "b1"⟩ :
        SelectionPage).buildingIdMatch = some "b1") ∧
    get_selection_params ⟨some (some "tok"), some "s1", some "b1"⟩
      = (some "tok", some "s1", some "b1") :=
  ⟨⟨rfl, rfl, rfl⟩,
   (C8_selection_params ⟨some (some "tok"), some "s1", some "b1"⟩).1
     "tok" "s1" "b1" rfl rfl rfl⟩

/-- Claim C9: for every profile page whose `personal_left` container is
present with at least two text fields, `get_personal_info` returns the
first field's stripped text as the name and the second field's text, with
the `学院：` label removed and stripped, as the organizational unit; for
every page missing the container it fails on the auth-or-page error
branch. -/
theorem C9_personal_info (page : ProfilePage) :
    (∀ p0 p1 rest, page.personalDiv = some (p0 :: p1 :: rest) →
      get_personal_info page
        = .ok (pyStrip p0) (pyStrip (pyRemoveCollegeLabel p1))) ∧
    (page.personalDiv = none → get_personal_info page = .authOrPageError) := by
  obtain ⟨pd⟩ := page
  constructor
  · rintro p0 p1 rest h
    subst h
    rfl
  · rintro h
    subst h
    rfl

/-- Witness for C9: a concrete profile page with two fields, with the
hypotheses checked there. -/
theorem C9_witness :
    ((⟨some ["  张三 ", " 学院：信息学院 "]⟩ : ProfilePage).personalDiv
        = some ["  张三 ", " 学院：信息学院 "] ∧
     get_personal_info ⟨some ["  张三 ", " 学院：信息学院 "]⟩
        = .ok (pyStrip "  张三 ")
            (pyStrip (pyRemoveCollegeLabel " 学院：信息学院 "))) ∧
    get_personal_info ⟨some ["  张三 ", " 学院：信息学院 "]⟩
      = .ok "张三" "信息学院" :=
  ⟨⟨rfl,
    (C9_personal_info ⟨some ["  张三 ", " 学院：信息学院 "]⟩).1
      "  张三 " " 学院：信息学院 " [] rfl⟩,
   by decide⟩

end SelectBeds
